import Mathlib

set_option maxRecDepth 4000

/-
Shallow embedding of the two lock-free state exchangers of the repository:

  src/common/JackAtomicState.h       (two-slot exchanger, "SingleExchanger")
  src/common/JackAtomicArrayState.h  (multi-slot exchanger, "ArrayExchanger")

Both classes serialize every mutation through a CAS retry loop on a packed
32-bit counter word.  In a sequential interleaving model each loop body runs
once and its CAS succeeds, so every operation is embedded as a pure function
from the exchanger state to the new exchanger state plus the returned values.

The C++ slot arrays (T fState[2] and T fState[3]) are modelled as total
functions Nat -> T: indices beyond the declared array length stand for
whatever memory happens to follow the array.  This is needed because
JackAtomicState::WriteNextStateStartAux indexes fState with the full 16-bit
CurIndex() value (not CurIndex() & 1), so for counter values >= 2 the source
performs an out-of-bounds read; the function model lets that read be stated
and evaluated instead of being silently clipped.
-/

namespace Jack

/-- Pointwise update of a function, modelling an in-place assignment to one
array element (or one byte-field of the packed counter). -/
def updFun {A : Type} (f : Nat → A) (i : Nat) (v : A) : Nat → A :=
  fun j => if j = i then v else f j

theorem updFun_self {A : Type} (f : Nat → A) (i : Nat) (v : A) :
    updFun f i v i = v := by
  simp [updFun]

theorem updFun_other {A : Type} (f : Nat → A) (i : Nat) (v : A) (j : Nat)
    (h : j ≠ i) : updFun f i v j = f j := by
  simp [updFun, h]

/-- AtomicCounter of JackAtomicState.h: a packed 32-bit word holding two
16-bit halves, fShortVal1 (read through CurIndex) and fShortVal2 (read
through NextIndex).  Each half is modelled as a Nat; the only arithmetic the
source performs on a half is the UInt16 increment in WriteNextStateStopAux,
modelled there with an explicit % 65536. -/
structure AtomicCounter where
  CurIndex : Nat
  NextIndex : Nat
deriving DecidableEq

/-- CurArrayIndex of AtomicCounter: CurIndex() & 0x0001. -/
def AtomicCounter.CurArrayIndex (c : AtomicCounter) : Nat :=
  c.CurIndex % 2

/-- NextArrayIndex of AtomicCounter: (CurIndex() + 1) & 0x0001. -/
def AtomicCounter.NextArrayIndex (c : AtomicCounter) : Nat :=
  (c.CurIndex + 1) % 2

/-- JackAtomicState<T>: two payload slots (fState), the packed counter and
the reentrant-write counter.  fState is a total function; only indices 0 and
1 belong to the C++ array T fState[2]. -/
structure JackAtomicState (T : Type) where
  fState : Nat → T
  fCounter : AtomicCounter
  fCallWriteCounter : Int

namespace JackAtomicState

variable {T : Type}

/-- WriteNextStateStartAux: one successful iteration of the CAS loop.
Note that the source sets cur_index to the full new_val.CurIndex() (no & 1
mask), while next_index is the masked NextArrayIndex; the memcpy source
index is therefore the raw 16-bit counter value. -/
def WriteNextStateStartAux (s : JackAtomicState T) : JackAtomicState T × Nat :=
  let cur_index := s.fCounter.CurIndex
  let next_index := s.fCounter.NextArrayIndex
  let need_copy := s.fCounter.CurIndex = s.fCounter.NextIndex
  ({ fState :=
       if need_copy then updFun s.fState next_index (s.fState cur_index)
       else s.fState,
     fCounter := { s.fCounter with NextIndex := s.fCounter.CurIndex },
     fCallWriteCounter := s.fCallWriteCounter },
   next_index)

/-- WriteNextStateStopAux: SetNextIndex(NextIndex() + 1) with UInt16 wrap. -/
def WriteNextStateStopAux (s : JackAtomicState T) : JackAtomicState T :=
  { s with fCounter :=
      { s.fCounter with NextIndex := (s.fCounter.NextIndex + 1) % 65536 } }

/-- ReadCurrentState: the payload of slot fState[CurArrayIndex()]. -/
def ReadCurrentState (s : JackAtomicState T) : T :=
  s.fState s.fCounter.CurArrayIndex

/-- GetCurrentIndex: the raw 16-bit CurIndex. -/
def GetCurrentIndex (s : JackAtomicState T) : Nat :=
  s.fCounter.CurIndex

/-- TrySwitchState(): SetCurIndex(NextIndex()), then return the slot index
CurArrayIndex() read from the updated counter. -/
def TrySwitchState (s : JackAtomicState T) : JackAtomicState T × Nat :=
  let s1 : JackAtomicState T :=
    { s with fCounter := { s.fCounter with CurIndex := s.fCounter.NextIndex } }
  (s1, s1.fCounter.CurArrayIndex)

/-- TrySwitchState(bool* result): same as TrySwitchState but also reports
whether CurIndex() differed from NextIndex() at the successful iteration. -/
def TrySwitchStateResult (s : JackAtomicState T) :
    JackAtomicState T × Nat × Bool :=
  let result := s.fCounter.CurIndex != s.fCounter.NextIndex
  let s1 : JackAtomicState T :=
    { s with fCounter := { s.fCounter with CurIndex := s.fCounter.NextIndex } }
  (s1, s1.fCounter.CurArrayIndex, result)

/-- WriteNextStateStart: post-increments fCallWriteCounter; the outermost
call (old value 0) runs WriteNextStateStartAux, a nested call just reads
NextArrayIndex without touching the counter word. -/
def WriteNextStateStart (s : JackAtomicState T) : JackAtomicState T × Nat :=
  let c := s.fCallWriteCounter
  let s0 : JackAtomicState T := { s with fCallWriteCounter := c + 1 }
  if c = 0 then WriteNextStateStartAux s0
  else (s0, s0.fCounter.NextArrayIndex)

/-- WriteNextStateStop: pre-decrements fCallWriteCounter and publishes via
WriteNextStateStopAux only when it reaches 0. -/
def WriteNextStateStop (s : JackAtomicState T) : JackAtomicState T :=
  let s0 : JackAtomicState T :=
    { s with fCallWriteCounter := s.fCallWriteCounter - 1 }
  if s0.fCallWriteCounter = 0 then WriteNextStateStopAux s0 else s0

/-- IsPendingChange: CurIndex() != NextIndex(). -/
def IsPendingChange (s : JackAtomicState T) : Bool :=
  s.fCounter.CurIndex != s.fCounter.NextIndex

/-- Model of the caller writing through the pointer returned by
WriteNextStateStart: assign value v to slot i. -/
def writeSlot (s : JackAtomicState T) (i : Nat) (v : T) : JackAtomicState T :=
  { s with fState := updFun s.fState i v }

/-- Sequential traces of a disciplined single writer and a reader: the
writer mutates only the pending slot and only inside an open write region,
and every WriteNextStateStop has a matching WriteNextStateStart. -/
inductive Reach : JackAtomicState T → Prop where
  | init (f : Nat → T) :
      Reach { fState := f, fCounter := { CurIndex := 0, NextIndex := 0 },
              fCallWriteCounter := 0 }
  | start (s : JackAtomicState T) :
      Reach s → Reach (WriteNextStateStart s).1
  | stop (s : JackAtomicState T) :
      Reach s → 1 ≤ s.fCallWriteCounter → Reach (WriteNextStateStop s)
  | switch (s : JackAtomicState T) :
      Reach s → Reach (TrySwitchState s).1
  | mutate (s : JackAtomicState T) (v : T) :
      Reach s → 1 ≤ s.fCallWriteCounter →
      Reach (writeSlot s s.fCounter.NextArrayIndex v)

end JackAtomicState

/-- AtomicArrayCounter of JackAtomicArrayState.h: a packed 32-bit word
viewed as 4 bytes fByteVal[0..3].  Each byte is modelled as a Nat; the only
byte arithmetic the source performs is the unsigned-char increment in
IncIndex1, modelled with an explicit % 256. -/
structure AtomicArrayCounter where
  fByteVal : Nat → Nat
deriving Inhabited

/-- GetIndex1: fByteVal[state]. -/
def AtomicArrayCounter.GetIndex1 (c : AtomicArrayCounter) (state : Nat) : Nat :=
  c.fByteVal state

/-- SetIndex1: fByteVal[state] := val. -/
def AtomicArrayCounter.SetIndex1 (c : AtomicArrayCounter) (state : Nat)
    (val : Nat) : AtomicArrayCounter :=
  { fByteVal := updFun c.fByteVal state val }

/-- IncIndex1: fByteVal[state]++ with unsigned-char wrap. -/
def AtomicArrayCounter.IncIndex1 (c : AtomicArrayCounter) (state : Nat) :
    AtomicArrayCounter :=
  { fByteVal := updFun c.fByteVal state ((c.fByteVal state + 1) % 256) }

/-- SwapIndex1: returns (fByteVal[0] == state) ? 0 : state.  The source
assigns this value to byte 0 of a local copy of the loaded word and then
discards the copy, so the call has no effect on the stored counter; only
the returned value matters. -/
def AtomicArrayCounter.SwapIndex1 (c : AtomicArrayCounter) (state : Nat) : Nat :=
  if c.fByteVal 0 = state then 0 else state

/-- JackAtomicArrayState<T>: three payload slots (fState) and the packed
byte counter.  fState is a total function; only indices 0..2 belong to the
C++ array T fState[3]. -/
structure JackAtomicArrayState (T : Type) where
  fState : Nat → T
  fCounter : AtomicArrayCounter

namespace JackAtomicArrayState

variable {T : Type}

/-- WriteNextStateStartAux(state, result): one successful iteration of the
CAS loop.  new_val starts as a copy of old_val; result is the boolean view
of GetIndex1(state); next_index comes from the side-effect-free SwapIndex1;
need_copy tests GetIndex1(state) == 0 before the invalidation store. -/
def WriteNextStateStartAux (s : JackAtomicArrayState T) (state : Nat) :
    JackAtomicArrayState T × Nat × Bool :=
  let old := s.fCounter
  let result := old.GetIndex1 state != 0
  let cur_index := old.GetIndex1 0
  let next_index := old.SwapIndex1 state
  let need_copy := old.GetIndex1 state = 0
  ({ fState :=
       if need_copy then updFun s.fState next_index (s.fState cur_index)
       else s.fState,
     fCounter := old.SetIndex1 state 0 },
   next_index, result)

/-- WriteNextStateStopAux(state): SetIndex1(state, 1), making the pending
state switchable. -/
def WriteNextStateStopAux (s : JackAtomicArrayState T) (state : Nat) :
    JackAtomicArrayState T :=
  { s with fCounter := s.fCounter.SetIndex1 state 1 }

/-- ReadCurrentState: the payload of slot fState[GetIndex1(0)]. -/
def ReadCurrentState (s : JackAtomicArrayState T) : T :=
  s.fState (s.fCounter.GetIndex1 0)

/-- GetCurrentIndex: the switch counter byte fByteVal[3]. -/
def GetCurrentIndex (s : JackAtomicArrayState T) : Nat :=
  s.fCounter.GetIndex1 3

/-- TrySwitchState(state): when GetIndex1(state) is non-zero, byte 0
becomes SwapIndex1(state) (computed before byte 0 is stored), byte state is
cleared and byte 3 incremented; otherwise the word is unchanged.  Returns
the new state together with the slot index GetIndex1(0) read back from the
updated counter. -/
def TrySwitchState (s : JackAtomicArrayState T) (state : Nat) :
    JackAtomicArrayState T × Nat :=
  let old := s.fCounter
  let nv :=
    if old.GetIndex1 state ≠ 0 then
      (((old.SetIndex1 0 (old.SwapIndex1 state)).SetIndex1 state 0).IncIndex1 3)
    else old
  ({ s with fCounter := nv }, nv.GetIndex1 0)

/-- TrySwitchState(state, result): same as TrySwitchState, also reporting
whether GetIndex1(state) was non-zero at the successful iteration. -/
def TrySwitchStateResult (s : JackAtomicArrayState T) (state : Nat) :
    JackAtomicArrayState T × Nat × Bool :=
  let p := TrySwitchState s state
  (p.1, p.2, s.fCounter.GetIndex1 state != 0)

/-- WriteNextStateStart(state): WriteNextStateStartAux with the result
flag dropped. -/
def WriteNextStateStart (s : JackAtomicArrayState T) (state : Nat) :
    JackAtomicArrayState T × Nat :=
  let p := WriteNextStateStartAux s state
  (p.1, p.2.1)

/-- WriteNextStateStart(state, result): WriteNextStateStartAux keeping the
result flag. -/
def WriteNextStateStartResult (s : JackAtomicArrayState T) (state : Nat) :
    JackAtomicArrayState T × Nat × Bool :=
  WriteNextStateStartAux s state

/-- WriteNextStateStop(state): plain call to WriteNextStateStopAux. -/
def WriteNextStateStop (s : JackAtomicArrayState T) (state : Nat) :
    JackAtomicArrayState T :=
  WriteNextStateStopAux s state

/-- Model of the caller writing through the pointer returned by
WriteNextStateStart: assign value v to slot i. -/
def writeSlot (s : JackAtomicArrayState T) (i : Nat) (v : T) :
    JackAtomicArrayState T :=
  { s with fState := updFun s.fState i v }

end JackAtomicArrayState

/-- Configuration for disciplined multi-writer traces of the array
exchanger: the exchanger state plus, for each pending id, the slot index
handed to that writer by its still-open WriteNextStateStart, if any. -/
structure AConfig where
  st : JackAtomicArrayState Nat
  region : Nat → Option Nat

/-- Sequential traces of writers on pending ids 1 and 2 (N = 3) and a
reader, each writer properly pairing WriteNextStateStart with
WriteNextStateStop and mutating only the slot its open begin returned. -/
inductive AReach : AConfig → Prop where
  | init :
      AReach { st := { fState := fun _ => 0,
                       fCounter := { fByteVal := fun _ => 0 } },
               region := fun _ => none }
  | start (c : AConfig) (p : Nat) :
      AReach c → (p = 1 ∨ p = 2) → c.region p = none →
      AReach { st := (JackAtomicArrayState.WriteNextStateStart c.st p).1,
               region := updFun c.region p
                 (some (JackAtomicArrayState.WriteNextStateStart c.st p).2) }
  | stop (c : AConfig) (p t : Nat) :
      AReach c → c.region p = some t →
      AReach { st := JackAtomicArrayState.WriteNextStateStop c.st p,
               region := updFun c.region p none }
  | mutate (c : AConfig) (p t v : Nat) :
      AReach c → c.region p = some t →
      AReach { st := JackAtomicArrayState.writeSlot c.st t v,
               region := c.region }
  | switch (c : AConfig) (p : Nat) :
      AReach c → (p = 1 ∨ p = 2) →
      AReach { st := (JackAtomicArrayState.TrySwitchState c.st p).1,
               region := c.region }

/-
Concrete scenario traces.  Payloads are Nat (the u32 of the spec scenarios);
initial slot contents are 0 unless noted.
-/

/-- Initial memory for the C1 trace: both slots of T fState[2] hold 0, the
memory beyond the two-element array holds 99 (an arbitrary junk value). -/
def csInitMem : Nat → Nat := fun j => if j < 2 then 0 else 99

/-- Freshly constructed two-slot exchanger over csInitMem. -/
def cs0 : JackAtomicState Nat :=
  { fState := csInitMem, fCounter := { CurIndex := 0, NextIndex := 0 },
    fCallWriteCounter := 0 }

/-- First write region opened (no payload mutation needed for the trace). -/
def cs1 : JackAtomicState Nat := (JackAtomicState.WriteNextStateStart cs0).1

/-- First write region closed: counter (0, 1). -/
def cs2 : JackAtomicState Nat := JackAtomicState.WriteNextStateStop cs1

/-- First switch: counter (1, 1). -/
def cs3 : JackAtomicState Nat := (JackAtomicState.TrySwitchState cs2).1

/-- Second write region opened. -/
def cs4 : JackAtomicState Nat := (JackAtomicState.WriteNextStateStart cs3).1

/-- Second write region closed: counter (1, 2). -/
def cs5 : JackAtomicState Nat := JackAtomicState.WriteNextStateStop cs4

/-- Second switch: counter (2, 2), no write in flight. -/
def cs6 : JackAtomicState Nat := (JackAtomicState.TrySwitchState cs5).1

/-- All-zero fresh array exchanger (S4 and S5 start here). -/
def aInit : JackAtomicArrayState Nat :=
  { fState := fun _ => 0, fCounter := { fByteVal := fun _ => 0 } }

/-- S4, writer A opens id 1. -/
def s4b1 : JackAtomicArrayState Nat × Nat :=
  JackAtomicArrayState.WriteNextStateStart aInit 1

/-- S4, writer A stores 100 in its pending slot. -/
def s4a1 : JackAtomicArrayState Nat :=
  JackAtomicArrayState.writeSlot s4b1.1 s4b1.2 100

/-- S4, writer A closes id 1. -/
def s4a2 : JackAtomicArrayState Nat :=
  JackAtomicArrayState.WriteNextStateStop s4a1 1

/-- S4, writer B opens id 2. -/
def s4b2 : JackAtomicArrayState Nat × Nat :=
  JackAtomicArrayState.WriteNextStateStart s4a2 2

/-- S4, writer B stores 200 in its pending slot. -/
def s4a3 : JackAtomicArrayState Nat :=
  JackAtomicArrayState.writeSlot s4b2.1 s4b2.2 200

/-- S4, writer B closes id 2. -/
def s4a4 : JackAtomicArrayState Nat :=
  JackAtomicArrayState.WriteNextStateStop s4a3 2

/-- S4, first switch, on id 1. -/
def s4w1 : JackAtomicArrayState Nat × Nat :=
  JackAtomicArrayState.TrySwitchState s4a4 1

/-- S4, second switch, on id 2. -/
def s4w2 : JackAtomicArrayState Nat × Nat :=
  JackAtomicArrayState.TrySwitchState s4w1.1 2

/-- S5, writer A opens id 1 the first time. -/
def s5b1 : JackAtomicArrayState Nat × Nat :=
  JackAtomicArrayState.WriteNextStateStart aInit 1

/-- S5 after set 1 and WriteNextStateStop(1): byte 1 is publishable. -/
def s5a1 : JackAtomicArrayState Nat :=
  JackAtomicArrayState.WriteNextStateStop
    (JackAtomicArrayState.writeSlot s5b1.1 s5b1.2 1) 1

/-- S5, writer A reopens id 1 while its previous update is unswitched. -/
def s5b2 : JackAtomicArrayState Nat × Nat × Bool :=
  JackAtomicArrayState.WriteNextStateStartResult s5a1 1

/-- S5 after set 2 and the second WriteNextStateStop(1). -/
def s5a2 : JackAtomicArrayState Nat :=
  JackAtomicArrayState.WriteNextStateStop
    (JackAtomicArrayState.writeSlot s5b2.1 s5b2.2.1 2) 1

/-- S5, the switch on id 1. -/
def s5w : JackAtomicArrayState Nat × Nat :=
  JackAtomicArrayState.TrySwitchState s5a2 1

/-- S3 starts from a fresh two-slot exchanger with zeroed slots. -/
def s3z0 : JackAtomicState Nat :=
  { fState := fun _ => 0, fCounter := { CurIndex := 0, NextIndex := 0 },
    fCallWriteCounter := 0 }

/-- S3, outer WriteNextStateStart. -/
def s3o : JackAtomicState Nat × Nat := JackAtomicState.WriteNextStateStart s3z0

/-- S3 after the outer writer stores 7. -/
def s3z1 : JackAtomicState Nat := JackAtomicState.writeSlot s3o.1 s3o.2 7

/-- S3, inner (nested) WriteNextStateStart. -/
def s3i : JackAtomicState Nat × Nat := JackAtomicState.WriteNextStateStart s3z1

/-- S3 after the inner writer stores 8. -/
def s3z2 : JackAtomicState Nat := JackAtomicState.writeSlot s3i.1 s3i.2 8

/-- S3, inner WriteNextStateStop (depth 2 to 1, publishes nothing). -/
def s3z3 : JackAtomicState Nat := JackAtomicState.WriteNextStateStop s3z2

/-- S3, outer WriteNextStateStop (publishes). -/
def s3z4 : JackAtomicState Nat := JackAtomicState.WriteNextStateStop s3z3

/-- S3, the reader switch. -/
def s3sw : JackAtomicState Nat × Nat × Bool :=
  JackAtomicState.TrySwitchStateResult s3z4

/-- Counterexample state for C2: current slot id 1 with byte 1 publishable,
reached for example by publish-and-switch on id 1 and then another
WriteNextStateStop(1). -/
def sC2 : JackAtomicArrayState Nat :=
  { fState := fun _ => 0,
    fCounter := { fByteVal := fun i => if i ≤ 1 then 1 else 0 } }

/-- Fresh two-slot exchanger used as a witness input. -/
def wInit : JackAtomicState Nat :=
  { fState := fun _ => 0, fCounter := { CurIndex := 0, NextIndex := 0 },
    fCallWriteCounter := 0 }

/-
C10 counterexample trace on the array exchanger: writer 1 publishes once
and the reader switches to id 1, writer 1 then reopens id 1 (handed the
shared physical slot 0), and while that region stays open writer 2 performs
two publish-and-switch rounds; the second switch on id 2 makes slot 0
current while writer 1 is still mutating it.
-/

/-- Fresh array-exchanger configuration, no open regions. -/
def cc0 : AConfig :=
  { st := { fState := fun _ => 0, fCounter := { fByteVal := fun _ => 0 } },
    region := fun _ => none }

/-- Writer 1 opens id 1 (handed slot 1). -/
def cc1 : AConfig :=
  { st := (JackAtomicArrayState.WriteNextStateStart cc0.st 1).1,
    region := updFun cc0.region 1
      (some (JackAtomicArrayState.WriteNextStateStart cc0.st 1).2) }

/-- Writer 1 closes id 1. -/
def cc2 : AConfig :=
  { st := JackAtomicArrayState.WriteNextStateStop cc1.st 1,
    region := updFun cc1.region 1 none }

/-- Reader switches to id 1: current slot id becomes 1. -/
def cc3 : AConfig :=
  { st := (JackAtomicArrayState.TrySwitchState cc2.st 1).1,
    region := cc2.region }

/-- Writer 1 reopens id 1: with current slot id 1 it is handed slot 0. -/
def cc4 : AConfig :=
  { st := (JackAtomicArrayState.WriteNextStateStart cc3.st 1).1,
    region := updFun cc3.region 1
      (some (JackAtomicArrayState.WriteNextStateStart cc3.st 1).2) }

/-- Writer 2 opens id 2 (handed slot 2). -/
def cc5 : AConfig :=
  { st := (JackAtomicArrayState.WriteNextStateStart cc4.st 2).1,
    region := updFun cc4.region 2
      (some (JackAtomicArrayState.WriteNextStateStart cc4.st 2).2) }

/-- Writer 2 closes id 2. -/
def cc6 : AConfig :=
  { st := JackAtomicArrayState.WriteNextStateStop cc5.st 2,
    region := updFun cc5.region 2 none }

/-- Reader switches to id 2: current slot id becomes 2. -/
def cc7 : AConfig :=
  { st := (JackAtomicArrayState.TrySwitchState cc6.st 2).1,
    region := cc6.region }

/-- Writer 2 reopens id 2: with current slot id 2 it is handed slot 0. -/
def cc8 : AConfig :=
  { st := (JackAtomicArrayState.WriteNextStateStart cc7.st 2).1,
    region := updFun cc7.region 2
      (some (JackAtomicArrayState.WriteNextStateStart cc7.st 2).2) }

/-- Writer 2 closes id 2 again. -/
def cc9 : AConfig :=
  { st := JackAtomicArrayState.WriteNextStateStop cc8.st 2,
    region := updFun cc8.region 2 none }

/-- Reader switches on id 2 once more: current slot id becomes 0, the slot
writer 1 is still mutating. -/
def cc10 : AConfig :=
  { st := (JackAtomicArrayState.TrySwitchState cc9.st 2).1,
    region := cc9.region }

/-
Supersession trace (S2 generalised): from a state s with no write in
progress, the single writer publishes v1 and then v2 with no switch in
between.
-/

/-- First WriteNextStateStart of the supersession trace. -/
def superB1 {T : Type} (s : JackAtomicState T) : JackAtomicState T × Nat :=
  JackAtomicState.WriteNextStateStart s

/-- State after the writer stores v1 in the slot handed out by superB1. -/
def superT1 {T : Type} (s : JackAtomicState T) (v1 : T) : JackAtomicState T :=
  JackAtomicState.writeSlot (superB1 s).1 (superB1 s).2 v1

/-- State after the first WriteNextStateStop (v1 published). -/
def superT2 {T : Type} (s : JackAtomicState T) (v1 : T) : JackAtomicState T :=
  JackAtomicState.WriteNextStateStop (superT1 s v1)

/-- Second WriteNextStateStart, superseding the unswitched v1. -/
def superB2 {T : Type} (s : JackAtomicState T) (v1 : T) :
    JackAtomicState T × Nat :=
  JackAtomicState.WriteNextStateStart (superT2 s v1)

/-- State after the writer stores v2 in the slot handed out by superB2. -/
def superT3 {T : Type} (s : JackAtomicState T) (v1 v2 : T) :
    JackAtomicState T :=
  JackAtomicState.writeSlot (superB2 s v1).1 (superB2 s v1).2 v2

/-- State after the second WriteNextStateStop (v2 published). -/
def superT4 {T : Type} (s : JackAtomicState T) (v1 v2 : T) :
    JackAtomicState T :=
  JackAtomicState.WriteNextStateStop (superT3 s v1 v2)

/-- The single switch ending the supersession trace. -/
def superSw {T : Type} (s : JackAtomicState T) (v1 v2 : T) :
    JackAtomicState T × Nat × Bool :=
  JackAtomicState.TrySwitchStateResult (superT4 s v1 v2)

/-
Helper lemmas.
-/

theorem mod2_succ_ne (c : Nat) : (c + 1) % 2 ≠ c % 2 := by omega

theorem mod65536_succ_ne (c : Nat) : (c + 1) % 65536 ≠ c := by omega

theorem mod65536_mod2 (c : Nat) : (c + 1) % 65536 % 2 = (c + 1) % 2 :=
  Nat.mod_mod_of_dvd _ (by norm_num)

namespace JackAtomicState

variable {T : Type}

/-- Outermost WriteNextStateStart, written as one structure literal. -/
theorem start_outer (s : JackAtomicState T) (h0 : s.fCallWriteCounter = 0) :
    WriteNextStateStart s =
      ({ fState :=
           if s.fCounter.CurIndex = s.fCounter.NextIndex then
             updFun s.fState s.fCounter.NextArrayIndex
               (s.fState s.fCounter.CurIndex)
           else s.fState,
         fCounter := { CurIndex := s.fCounter.CurIndex,
                       NextIndex := s.fCounter.CurIndex },
         fCallWriteCounter := s.fCallWriteCounter + 1 },
       s.fCounter.NextArrayIndex) := by
  simp [WriteNextStateStart, WriteNextStateStartAux, h0]

/-- Nested WriteNextStateStart: only the depth counter moves. -/
theorem start_inner (s : JackAtomicState T) (h0 : ¬s.fCallWriteCounter = 0) :
    WriteNextStateStart s =
      ({ s with fCallWriteCounter := s.fCallWriteCounter + 1 },
       s.fCounter.NextArrayIndex) := by
  simp [WriteNextStateStart, h0]

/-- Outermost WriteNextStateStop, written as one structure literal. -/
theorem stop_outer (s : JackAtomicState T) (h0 : s.fCallWriteCounter = 1) :
    WriteNextStateStop s =
      { fState := s.fState,
        fCounter := { CurIndex := s.fCounter.CurIndex,
                      NextIndex := (s.fCounter.NextIndex + 1) % 65536 },
        fCallWriteCounter := 0 } := by
  simp [WriteNextStateStop, WriteNextStateStopAux, h0]

/-- Nested WriteNextStateStop: only the depth counter moves. -/
theorem stop_inner (s : JackAtomicState T)
    (h0 : ¬s.fCallWriteCounter - 1 = 0) :
    WriteNextStateStop s =
      { s with fCallWriteCounter := s.fCallWriteCounter - 1 } := by
  simp [WriteNextStateStop, h0]

/-- TrySwitchState, written as one structure literal. -/
theorem switch_eq (s : JackAtomicState T) :
    TrySwitchState s =
      ({ fState := s.fState,
         fCounter := { CurIndex := s.fCounter.NextIndex,
                       NextIndex := s.fCounter.NextIndex },
         fCallWriteCounter := s.fCallWriteCounter },
       s.fCounter.NextIndex % 2) := rfl

/-- TrySwitchStateResult, written as one structure literal. -/
theorem switchResult_eq (s : JackAtomicState T) :
    TrySwitchStateResult s =
      ({ fState := s.fState,
         fCounter := { CurIndex := s.fCounter.NextIndex,
                       NextIndex := s.fCounter.NextIndex },
         fCallWriteCounter := s.fCallWriteCounter },
       s.fCounter.NextIndex % 2,
       s.fCounter.CurIndex != s.fCounter.NextIndex) := rfl

/-- Invariant of disciplined single-writer traces: the counter halves stay
below 2^16, the write depth stays non-negative, the halves coincide while a
write region is open, and the pending half is never more than one ahead. -/
theorem reach_counter_inv (s : JackAtomicState T) (h : Reach s) :
    s.fCounter.CurIndex < 65536 ∧ s.fCounter.NextIndex < 65536 ∧
    0 ≤ s.fCallWriteCounter ∧
    (1 ≤ s.fCallWriteCounter → s.fCounter.NextIndex = s.fCounter.CurIndex) ∧
    (s.fCounter.NextIndex = s.fCounter.CurIndex ∨
     s.fCounter.NextIndex = (s.fCounter.CurIndex + 1) % 65536) := by
  induction h with
  | init f =>
      exact ⟨by norm_num, by norm_num, le_refl 0, fun _ => rfl, Or.inl rfl⟩
  | start s hs ih =>
      obtain ⟨hc, hn, hd, hw, hp⟩ := ih
      by_cases h0 : s.fCallWriteCounter = 0
      · rw [start_outer s h0]
        dsimp only
        exact ⟨hc, hc, by omega, fun _ => rfl, Or.inl rfl⟩
      · rw [start_inner s h0]
        dsimp only
        exact ⟨hc, hn, by omega, fun _ => hw (by omega), hp⟩
  | stop s hs hd1 ih =>
      obtain ⟨hc, hn, hd, hw, hp⟩ := ih
      have hnc : s.fCounter.NextIndex = s.fCounter.CurIndex := hw hd1
      by_cases h0 : s.fCallWriteCounter - 1 = 0
      · rw [stop_outer s (by omega)]
        dsimp only
        exact ⟨hc, by omega, by omega, fun hx => by omega,
               Or.inr (by rw [hnc])⟩
      · rw [stop_inner s h0]
        dsimp only
        exact ⟨hc, hn, by omega, fun _ => hnc, hp⟩
  | switch s hs ih =>
      obtain ⟨hc, hn, hd, hw, hp⟩ := ih
      rw [switch_eq s]
      dsimp only
      exact ⟨hn, hn, hd, fun _ => rfl, Or.inl rfl⟩
  | mutate s v hs hd1 ih =>
      exact ih

end JackAtomicState

namespace JackAtomicArrayState

variable {T : Type}

/-- Returned pending index of WriteNextStateStartAux is SwapIndex1. -/
theorem startAux_idx (s : JackAtomicArrayState T) (p : Nat) :
    (WriteNextStateStartAux s p).2.1 =
      (if s.fCounter.fByteVal 0 = p then 0 else p) := rfl

/-- Result flag of WriteNextStateStartAux is the written flag of id p. -/
theorem startAux_result (s : JackAtomicArrayState T) (p : Nat) :
    (WriteNextStateStartAux s p).2.2 = (s.fCounter.fByteVal p != 0) := rfl

/-- WriteNextStateStartAux leaves byte 0 unchanged for a non-zero id. -/
theorem startAux_byte0 (s : JackAtomicArrayState T) (p : Nat)
    (hp : p = 1 ∨ p = 2) :
    (WriteNextStateStartAux s p).1.fCounter.fByteVal 0 =
      s.fCounter.fByteVal 0 := by
  rcases hp with hp | hp <;> subst hp <;>
    simp [WriteNextStateStartAux, AtomicArrayCounter.SetIndex1,
          AtomicArrayCounter.GetIndex1, updFun]

/-- WriteNextStateStartAux performs no copy when the previous update of id
p is still publishable. -/
theorem startAux_fState_of_pub (s : JackAtomicArrayState T) (p : Nat)
    (h : s.fCounter.fByteVal p ≠ 0) :
    (WriteNextStateStartAux s p).1.fState = s.fState := by
  simp [WriteNextStateStartAux, AtomicArrayCounter.GetIndex1, h]

/-- WriteNextStateStartAux copies the current slot into the pending slot
when the written flag of id p is clear. -/
theorem startAux_fState_of_clear (s : JackAtomicArrayState T) (p : Nat)
    (h : s.fCounter.fByteVal p = 0) :
    (WriteNextStateStartAux s p).1.fState =
      updFun s.fState (if s.fCounter.fByteVal 0 = p then 0 else p)
        (s.fState (s.fCounter.fByteVal 0)) := by
  simp [WriteNextStateStartAux, AtomicArrayCounter.GetIndex1,
        AtomicArrayCounter.SwapIndex1, h]

/-- Byte-level effect of a successful TrySwitchState on id p in {1, 2}:
byte 0 is toggled to (byte 0 = p ? 0 : p), byte p is cleared, byte 3 is
incremented mod 256, the payload slots are untouched, and the returned slot
index is the new byte 0. -/
theorem switch_bytes (s : JackAtomicArrayState T) (p : Nat)
    (hp : p = 1 ∨ p = 2) (h : s.fCounter.fByteVal p ≠ 0) :
    (TrySwitchState s p).1.fCounter.fByteVal 0 =
      (if s.fCounter.fByteVal 0 = p then 0 else p) ∧
    (TrySwitchState s p).1.fCounter.fByteVal p = 0 ∧
    (TrySwitchState s p).1.fCounter.fByteVal 3 =
      (s.fCounter.fByteVal 3 + 1) % 256 ∧
    (TrySwitchState s p).1.fState = s.fState ∧
    (TrySwitchState s p).2 = (TrySwitchState s p).1.fCounter.fByteVal 0 := by
  rcases hp with hp | hp <;> subst hp <;>
    simp [TrySwitchState, AtomicArrayCounter.SetIndex1,
          AtomicArrayCounter.IncIndex1, AtomicArrayCounter.GetIndex1,
          AtomicArrayCounter.SwapIndex1, updFun, h]

/-- TrySwitchState is a no-op returning the unchanged current slot when the
written flag of id p is clear. -/
theorem switch_noop (s : JackAtomicArrayState T) (p : Nat)
    (h : s.fCounter.fByteVal p = 0) :
    TrySwitchState s p = (s, s.fCounter.fByteVal 0) := by
  simp [TrySwitchState, AtomicArrayCounter.GetIndex1, h]

end JackAtomicArrayState

/-
Claim theorems.
-/

/-- Claim C1 is refuted by the code: in the reachable state cs6, which has
CurIndex = NextIndex = 2 and no write in flight, WriteNextStateStartAux
seeds the pending slot fState[(cur + 1) & 1] = fState[1] from fState[2] (the
raw 16-bit CurIndex used as the memcpy source index, one element past the
two-element array) instead of from the current slot fState[cur & 1] =
fState[0]; with 99 standing for the memory beyond the array, the pending
slot starts from 99 rather than from the current payload 0. -/
theorem C1_copy_reads_out_of_bounds :
    JackAtomicState.Reach cs6 ∧
    cs6.fCounter.CurIndex = 2 ∧ cs6.fCounter.NextIndex = 2 ∧
    (JackAtomicState.WriteNextStateStartAux cs6).1.fState
        cs6.fCounter.NextArrayIndex = cs6.fState 2 ∧
    cs6.fState 2 = 99 ∧
    cs6.fState cs6.fCounter.CurArrayIndex = 0 ∧
    (JackAtomicState.WriteNextStateStartAux cs6).1.fState
        cs6.fCounter.NextArrayIndex ≠
      cs6.fState cs6.fCounter.CurArrayIndex := by
  refine ⟨?_, by decide, by decide, by decide, by decide, by decide, by decide⟩
  exact JackAtomicState.Reach.switch _ (JackAtomicState.Reach.stop _
    (JackAtomicState.Reach.start _ (JackAtomicState.Reach.switch _
      (JackAtomicState.Reach.stop _ (JackAtomicState.Reach.start _
        (JackAtomicState.Reach.init csInitMem)) (by decide)))) (by decide))

/-- Claim C7: two consecutive TrySwitchState calls with nothing in between
return the same slot index and the second reports switched = false; the
switched output equals CurIndex != NextIndex as observed at the successful
iteration; a switch from a state with CurIndex = NextIndex leaves the
counter and the current payload unchanged. -/
theorem C7_try_switch_idempotent {T : Type} (s : JackAtomicState T) :
    (JackAtomicState.TrySwitchStateResult
        (JackAtomicState.TrySwitchStateResult s).1).2.1 =
      (JackAtomicState.TrySwitchStateResult s).2.1 ∧
    (JackAtomicState.TrySwitchStateResult
        (JackAtomicState.TrySwitchStateResult s).1).2.2 = false ∧
    (JackAtomicState.TrySwitchStateResult
        (JackAtomicState.TrySwitchStateResult s).1).1.fState = s.fState ∧
    (JackAtomicState.TrySwitchStateResult s).2.2 =
      (s.fCounter.CurIndex != s.fCounter.NextIndex) ∧
    (s.fCounter.CurIndex = s.fCounter.NextIndex →
      (JackAtomicState.TrySwitchStateResult s).1.fCounter.CurIndex =
          s.fCounter.CurIndex ∧
      (JackAtomicState.TrySwitchStateResult s).1.fCounter.NextIndex =
          s.fCounter.NextIndex ∧
      JackAtomicState.ReadCurrentState
          (JackAtomicState.TrySwitchStateResult s).1 =
        JackAtomicState.ReadCurrentState s) := by
  refine ⟨rfl, by simp [JackAtomicState.TrySwitchStateResult], rfl, rfl,
          fun h => ⟨h.symm, rfl, ?_⟩⟩
  simp [JackAtomicState.TrySwitchStateResult, JackAtomicState.ReadCurrentState,
        AtomicCounter.CurArrayIndex, h]

/-- Witness for C7 at the fresh exchanger wInit, where CurIndex = NextIndex
holds, so the no-pending clause is discharged. -/
theorem C7_try_switch_idempotent_witness :
    ((JackAtomicState.TrySwitchStateResult
        (JackAtomicState.TrySwitchStateResult wInit).1).2.1 =
      (JackAtomicState.TrySwitchStateResult wInit).2.1) ∧
    ((JackAtomicState.TrySwitchStateResult
        (JackAtomicState.TrySwitchStateResult wInit).1).2.2 = false) ∧
    ((JackAtomicState.TrySwitchStateResult wInit).2.2 =
      (wInit.fCounter.CurIndex != wInit.fCounter.NextIndex)) ∧
    ((JackAtomicState.TrySwitchStateResult wInit).1.fCounter.CurIndex =
      wInit.fCounter.CurIndex) ∧
    (JackAtomicState.ReadCurrentState
        (JackAtomicState.TrySwitchStateResult wInit).1 =
      JackAtomicState.ReadCurrentState wInit) :=
  ⟨(C7_try_switch_idempotent wInit).1,
   (C7_try_switch_idempotent wInit).2.1,
   (C7_try_switch_idempotent wInit).2.2.2.1,
   ((C7_try_switch_idempotent wInit).2.2.2.2 rfl).1,
   ((C7_try_switch_idempotent wInit).2.2.2.2 rfl).2.2⟩

/-- Claim C9: on every state reachable under the paired-and-nested write
discipline, NextIndex equals CurIndex or CurIndex + 1 (mod 2^16), and when
the two differ a TrySwitchState advances CurIndex by exactly 1 (mod 2^16). -/
theorem C9_counter_invariant {T : Type} (s : JackAtomicState T)
    (h : JackAtomicState.Reach s) :
    (s.fCounter.NextIndex = s.fCounter.CurIndex ∨
     s.fCounter.NextIndex = (s.fCounter.CurIndex + 1) % 65536) ∧
    (s.fCounter.CurIndex ≠ s.fCounter.NextIndex →
      (JackAtomicState.TrySwitchState s).1.fCounter.CurIndex =
        (s.fCounter.CurIndex + 1) % 65536) := by
  obtain ⟨hc, hn, hd, hw, hp⟩ := JackAtomicState.reach_counter_inv s h
  refine ⟨hp, fun hne => ?_⟩
  rw [JackAtomicState.switch_eq]
  dsimp only
  rcases hp with h1 | h1
  · exact absurd h1.symm hne
  · exact h1

/-- Witness for C9 at the fresh exchanger, reachable by Reach.init. -/
theorem C9_counter_invariant_witness :
    (wInit.fCounter.NextIndex = wInit.fCounter.CurIndex ∨
     wInit.fCounter.NextIndex = (wInit.fCounter.CurIndex + 1) % 65536) ∧
    (wInit.fCounter.CurIndex ≠ wInit.fCounter.NextIndex →
      (JackAtomicState.TrySwitchState wInit).1.fCounter.CurIndex =
        (wInit.fCounter.CurIndex + 1) % 65536) :=
  C9_counter_invariant wInit (JackAtomicState.Reach.init _)

/-- Claim C6: in scenario S4 (two writers on disjoint ids 1 and 2 from the
all-zero state, then switches on id 1 and id 2) the final current payload is
200, the switch counter byte 3 has advanced by exactly 2, the first switch
advanced it to 1, and GetCurrentIndex returns exactly that byte. -/
theorem C6_two_writer_interleave :
    JackAtomicArrayState.ReadCurrentState s4w2.1 = 200 ∧
    s4w2.1.fCounter.fByteVal 3 = 2 ∧
    s4w1.1.fCounter.fByteVal 3 = 1 ∧
    aInit.fCounter.fByteVal 3 = 0 ∧
    JackAtomicArrayState.GetCurrentIndex s4w2.1 =
      s4w2.1.fCounter.fByteVal 3 := by
  refine ⟨by decide, by decide, by decide, by decide, by decide⟩

/-- Counterexample to claim C2 as stated: in the state sC2, whose current
slot id byte 0 is 1 and whose pending flag byte 1 is non-zero, a
TrySwitchState on id 1 sets byte 0 to 0, not to the pending id 1. -/
theorem C2_counterexample :
    sC2.fCounter.fByteVal 1 ≠ 0 ∧
    (JackAtomicArrayState.TrySwitchState sC2 1).1.fCounter.fByteVal 0 = 0 ∧
    ¬(JackAtomicArrayState.TrySwitchState sC2 1).1.fCounter.fByteVal 0 = 1 := by
  refine ⟨by decide, by decide, by decide⟩

/-- Claim C2 as amended: for a pending id p in {1, 2} with a non-zero
written flag, TrySwitchState sets byte 0 to p when the old byte 0 differs
from p and to 0 when it equals p, clears byte p, increments byte 3 mod 256
and leaves the payload slots untouched; with a zero written flag it changes
nothing and returns the unchanged current slot id. -/
theorem C2_try_switch_effect {T : Type} (s : JackAtomicArrayState T)
    (p : Nat) (hp : p = 1 ∨ p = 2) :
    (s.fCounter.fByteVal p ≠ 0 →
      (JackAtomicArrayState.TrySwitchState s p).1.fCounter.fByteVal 0 =
        (if s.fCounter.fByteVal 0 = p then 0 else p) ∧
      (JackAtomicArrayState.TrySwitchState s p).1.fCounter.fByteVal p = 0 ∧
      (JackAtomicArrayState.TrySwitchState s p).1.fCounter.fByteVal 3 =
        (s.fCounter.fByteVal 3 + 1) % 256 ∧
      (JackAtomicArrayState.TrySwitchState s p).1.fState = s.fState) ∧
    (s.fCounter.fByteVal p = 0 →
      JackAtomicArrayState.TrySwitchState s p = (s, s.fCounter.fByteVal 0)) := by
  refine ⟨fun h => ?_, fun h => JackAtomicArrayState.switch_noop s p h⟩
  obtain ⟨h0, h1, h3, hf, _⟩ := JackAtomicArrayState.switch_bytes s p hp h
  exact ⟨h0, h1, h3, hf⟩

/-- Witness for C2 at sC2 with p = 1 (written flag non-zero) and at the
all-zero aInit with p = 1 (written flag zero). -/
theorem C2_try_switch_effect_witness :
    ((JackAtomicArrayState.TrySwitchState sC2 1).1.fCounter.fByteVal 0 =
      (if sC2.fCounter.fByteVal 0 = 1 then 0 else 1)) ∧
    ((JackAtomicArrayState.TrySwitchState sC2 1).1.fCounter.fByteVal 1 = 0) ∧
    ((JackAtomicArrayState.TrySwitchState sC2 1).1.fCounter.fByteVal 3 =
      (sC2.fCounter.fByteVal 3 + 1) % 256) ∧
    (JackAtomicArrayState.TrySwitchState aInit 1 =
      (aInit, aInit.fCounter.fByteVal 0)) := by
  have h := (C2_try_switch_effect sC2 1 (Or.inl rfl)).1 (by decide)
  have h2 := (C2_try_switch_effect aInit 1 (Or.inl rfl)).2 (by decide)
  exact ⟨h.1, h.2.1, h.2.2.1, h2⟩

/-- Claim C3: both WriteNextStateStart(p) and a successful TrySwitchState(p)
select the physical slot by the same toggle rule (slot 0 when byte 0 already
equals p, slot p otherwise); hence from any state with the same current slot
id and a publishable flag, the slot TrySwitchState(p) promotes is exactly
the slot WriteNextStateStart(p) returned; and when byte 0 equals p at the
switch the new current slot id is 0, not p. -/
theorem C3_toggle_rule {T : Type} (s s2 : JackAtomicArrayState T) (p : Nat)
    (hp : p = 1 ∨ p = 2) :
    (JackAtomicArrayState.WriteNextStateStart s p).2 =
      (if s.fCounter.fByteVal 0 = p then 0 else p) ∧
    (s.fCounter.fByteVal p ≠ 0 →
      (JackAtomicArrayState.TrySwitchState s p).1.fCounter.fByteVal 0 =
        (if s.fCounter.fByteVal 0 = p then 0 else p)) ∧
    (s2.fCounter.fByteVal 0 = s.fCounter.fByteVal 0 →
      s2.fCounter.fByteVal p ≠ 0 →
      (JackAtomicArrayState.TrySwitchState s2 p).1.fCounter.fByteVal 0 =
        (JackAtomicArrayState.WriteNextStateStart s p).2) ∧
    (s.fCounter.fByteVal 0 = p → s.fCounter.fByteVal p ≠ 0 →
      (JackAtomicArrayState.TrySwitchState s p).1.fCounter.fByteVal 0 = 0 ∧
      p ≠ 0) := by
  refine ⟨rfl, fun h => (JackAtomicArrayState.switch_bytes s p hp h).1,
          fun he h => ?_, fun h0 h => ?_⟩
  · rw [(JackAtomicArrayState.switch_bytes s2 p hp h).1, he]
    rfl
  · refine ⟨?_, by rcases hp with hp | hp <;> subst hp <;> decide⟩
    rw [(JackAtomicArrayState.switch_bytes s p hp h).1, h0]
    simp

/-- Witness for C3 at sC2 (current slot id 1, flag 1 publishable) with
p = 1, where every hypothesis of every clause holds. -/
theorem C3_toggle_rule_witness :
    ((JackAtomicArrayState.WriteNextStateStart sC2 1).2 =
      (if sC2.fCounter.fByteVal 0 = 1 then 0 else 1)) ∧
    ((JackAtomicArrayState.TrySwitchState sC2 1).1.fCounter.fByteVal 0 =
      (if sC2.fCounter.fByteVal 0 = 1 then 0 else 1)) ∧
    ((JackAtomicArrayState.TrySwitchState sC2 1).1.fCounter.fByteVal 0 =
      (JackAtomicArrayState.WriteNextStateStart sC2 1).2) ∧
    ((JackAtomicArrayState.TrySwitchState sC2 1).1.fCounter.fByteVal 0 = 0) := by
  have h := C3_toggle_rule sC2 sC2 1 (Or.inl rfl)
  exact ⟨h.1, h.2.1 (by decide), h.2.2.1 rfl (by decide),
         (h.2.2.2 (by decide) (by decide)).1⟩

/-- Claim C8: the was_published flag of WriteNextStateStart(p, result) is
true exactly when the written flag of id p was non-zero; in that case the
previous unswitched update is overwritten in place with no copy (need_copy
is byte p = 0); in scenario S5 the second begin on id 1 reports
was_published = true and is handed the same slot as the first, and the
final switch yields payload 2 with byte 3 advanced by 1. -/
theorem C8_overwrite_unswitched {T : Type} (s : JackAtomicArrayState T)
    (p : Nat) :
    ((JackAtomicArrayState.WriteNextStateStartResult s p).2.2 = true ↔
      s.fCounter.fByteVal p ≠ 0) ∧
    (s.fCounter.fByteVal p ≠ 0 →
      (JackAtomicArrayState.WriteNextStateStartResult s p).1.fState =
          s.fState ∧
      (JackAtomicArrayState.WriteNextStateStartResult s p).2.1 =
        (if s.fCounter.fByteVal 0 = p then 0 else p)) ∧
    (s.fCounter.fByteVal p = 0 →
      (JackAtomicArrayState.WriteNextStateStartResult s p).1.fState =
        updFun s.fState (if s.fCounter.fByteVal 0 = p then 0 else p)
          (s.fState (s.fCounter.fByteVal 0))) ∧
    s5b2.2.2 = true ∧
    s5b2.2.1 = s5b1.2 ∧
    JackAtomicArrayState.ReadCurrentState s5w.1 = 2 ∧
    s5w.1.fCounter.fByteVal 3 = 1 := by
  refine ⟨?_, fun h => ⟨JackAtomicArrayState.startAux_fState_of_pub s p h,
            rfl⟩,
          fun h => JackAtomicArrayState.startAux_fState_of_clear s p h,
          by decide, by decide, by decide, by decide⟩
  show (s.fCounter.fByteVal p != 0) = true ↔ s.fCounter.fByteVal p ≠ 0
  simp

/-- Witness for C8 at s5a1 (the S5 state whose flag for id 1 is
publishable) and at aInit (flag clear), with p = 1. -/
theorem C8_overwrite_unswitched_witness :
    ((JackAtomicArrayState.WriteNextStateStartResult s5a1 1).2.2 = true) ∧
    ((JackAtomicArrayState.WriteNextStateStartResult s5a1 1).1.fState =
      s5a1.fState) ∧
    ((JackAtomicArrayState.WriteNextStateStartResult aInit 1).1.fState =
      updFun aInit.fState (if aInit.fCounter.fByteVal 0 = 1 then 0 else 1)
        (aInit.fState (aInit.fCounter.fByteVal 0))) := by
  have h := C8_overwrite_unswitched s5a1 1
  have h2 := C8_overwrite_unswitched aInit 1
  exact ⟨h.1.mpr (by decide), (h.2.1 (by decide)).1, h2.2.2.1 (by decide)⟩

/-- Claim C4: from any state with no write in progress, after the writer
publishes v1 and then v2 with no switch in between, one TrySwitchState
reports switched = true, the current payload is v2, nothing is pending
afterwards, and at every intermediate point of the trace the current
payload is still the original one, so the superseded v1 is never the
current payload. -/
theorem C4_supersession {T : Type} (s : JackAtomicState T) (v1 v2 : T)
    (h : s.fCallWriteCounter = 0) :
    (superSw s v1 v2).2.2 = true ∧
    JackAtomicState.ReadCurrentState (superSw s v1 v2).1 = v2 ∧
    JackAtomicState.IsPendingChange (superSw s v1 v2).1 = false ∧
    JackAtomicState.ReadCurrentState (superB1 s).1 =
      JackAtomicState.ReadCurrentState s ∧
    JackAtomicState.ReadCurrentState (superT1 s v1) =
      JackAtomicState.ReadCurrentState s ∧
    JackAtomicState.ReadCurrentState (superT2 s v1) =
      JackAtomicState.ReadCurrentState s ∧
    JackAtomicState.ReadCurrentState (superB2 s v1).1 =
      JackAtomicState.ReadCurrentState s ∧
    JackAtomicState.ReadCurrentState (superT3 s v1 v2) =
      JackAtomicState.ReadCurrentState s ∧
    JackAtomicState.ReadCurrentState (superT4 s v1 v2) =
      JackAtomicState.ReadCurrentState s := by
  obtain ⟨f, ⟨c, n⟩, d⟩ := s
  dsimp only at h
  subst h
  have hx : ¬(c = (c + 1) % 65536) := fun e => mod65536_succ_ne c e.symm
  have hy : ¬(c % 2 = (c + 1) % 2) := fun e => mod2_succ_ne c e.symm
  by_cases hcn : c = n
  · subst hcn
    simp [superSw, superT4, superT3, superB2, superT2, superT1, superB1,
          JackAtomicState.WriteNextStateStart,
          JackAtomicState.WriteNextStateStartAux,
          JackAtomicState.WriteNextStateStop,
          JackAtomicState.WriteNextStateStopAux,
          JackAtomicState.TrySwitchStateResult, JackAtomicState.writeSlot,
          JackAtomicState.ReadCurrentState, JackAtomicState.IsPendingChange,
          AtomicCounter.CurArrayIndex, AtomicCounter.NextArrayIndex,
          updFun, hx, hy, mod65536_mod2]
  · simp [superSw, superT4, superT3, superB2, superT2, superT1, superB1,
          JackAtomicState.WriteNextStateStart,
          JackAtomicState.WriteNextStateStartAux,
          JackAtomicState.WriteNextStateStop,
          JackAtomicState.WriteNextStateStopAux,
          JackAtomicState.TrySwitchStateResult, JackAtomicState.writeSlot,
          JackAtomicState.ReadCurrentState, JackAtomicState.IsPendingChange,
          AtomicCounter.CurArrayIndex, AtomicCounter.NextArrayIndex,
          updFun, hx, hy, hcn, mod65536_mod2]

/-- Witness for C4 at the fresh exchanger with v1 = 10 and v2 = 20 (S2). -/
theorem C4_supersession_witness :
    (superSw wInit 10 20).2.2 = true ∧
    JackAtomicState.ReadCurrentState (superSw wInit 10 20).1 = 20 ∧
    JackAtomicState.IsPendingChange (superSw wInit 10 20).1 = false ∧
    JackAtomicState.ReadCurrentState (superT2 wInit 10) =
      JackAtomicState.ReadCurrentState wInit := by
  have h := C4_supersession wInit 10 20 rfl
  exact ⟨h.1, h.2.1, h.2.2.1, h.2.2.2.2.2.1⟩

/-- Claim C5: inside an open write region a nested WriteNextStateStart
returns the pending slot NextArrayIndex and leaves the counter word and the
payload slots untouched, and after an outer WriteNextStateStart the nested
call returns the very slot the outer call returned; every
WriteNextStateStart adds one to the depth counter and every
WriteNextStateStop subtracts one; a non-outermost WriteNextStateStop leaves
the counter word unchanged and only the outermost one publishes; in
scenario S3 the reader switch yields payload 8 with CurIndex advanced by
exactly 1. -/
theorem C5_nested_write {T : Type} (s : JackAtomicState T) :
    (1 ≤ s.fCallWriteCounter →
      (JackAtomicState.WriteNextStateStart s).1.fCounter = s.fCounter ∧
      (JackAtomicState.WriteNextStateStart s).1.fState = s.fState ∧
      (JackAtomicState.WriteNextStateStart s).2 =
        s.fCounter.NextArrayIndex) ∧
    (s.fCallWriteCounter = 0 →
      (JackAtomicState.WriteNextStateStart
          (JackAtomicState.WriteNextStateStart s).1).2 =
        (JackAtomicState.WriteNextStateStart s).2 ∧
      (JackAtomicState.WriteNextStateStart
          (JackAtomicState.WriteNextStateStart s).1).1.fCounter =
        (JackAtomicState.WriteNextStateStart s).1.fCounter) ∧
    (JackAtomicState.WriteNextStateStart s).1.fCallWriteCounter =
      s.fCallWriteCounter + 1 ∧
    (JackAtomicState.WriteNextStateStop s).fCallWriteCounter =
      s.fCallWriteCounter - 1 ∧
    (2 ≤ s.fCallWriteCounter →
      (JackAtomicState.WriteNextStateStop s).fCounter = s.fCounter) ∧
    (s.fCallWriteCounter = 1 →
      (JackAtomicState.WriteNextStateStop s).fCounter.CurIndex =
        s.fCounter.CurIndex ∧
      (JackAtomicState.WriteNextStateStop s).fCounter.NextIndex =
        (s.fCounter.NextIndex + 1) % 65536) ∧
    (JackAtomicState.ReadCurrentState s3sw.1 = 8 ∧ s3sw.2.2 = true ∧
     s3sw.1.fCounter.CurIndex = s3z0.fCounter.CurIndex + 1) := by
  refine ⟨fun h1 => ?_, fun h0 => ?_, ?_, ?_, fun h2 => ?_, fun h1 => ?_,
          by decide, by decide, by decide⟩
  · rw [JackAtomicState.start_inner s (by omega)]
    exact ⟨rfl, rfl, rfl⟩
  · rw [JackAtomicState.start_outer s h0]
    dsimp only
    rw [JackAtomicState.start_inner _ (by dsimp only; omega)]
    exact ⟨rfl, rfl⟩
  · by_cases h0 : s.fCallWriteCounter = 0
    · rw [JackAtomicState.start_outer s h0]
    · rw [JackAtomicState.start_inner s h0]
  · by_cases h0 : s.fCallWriteCounter - 1 = 0
    · rw [JackAtomicState.stop_outer s (by omega)]
      dsimp only
      omega
    · rw [JackAtomicState.stop_inner s h0]
  · rw [JackAtomicState.stop_inner s (by omega)]
  · rw [JackAtomicState.stop_outer s h1]
    exact ⟨rfl, rfl⟩

/-- Witness for C5: the region-open clauses at the S3 intermediate states
s3z1 (depth 1) and s3z2 (depth 2), the outer-inner clause and the
depth-movement clauses at the fresh exchanger s3z0. -/
theorem C5_nested_write_witness :
    ((JackAtomicState.WriteNextStateStart s3z1).1.fCounter =
      s3z1.fCounter) ∧
    ((JackAtomicState.WriteNextStateStart s3z1).2 =
      s3z1.fCounter.NextArrayIndex) ∧
    ((JackAtomicState.WriteNextStateStart
        (JackAtomicState.WriteNextStateStart s3z0).1).2 =
      (JackAtomicState.WriteNextStateStart s3z0).2) ∧
    ((JackAtomicState.WriteNextStateStart s3z0).1.fCallWriteCounter =
      s3z0.fCallWriteCounter + 1) ∧
    ((JackAtomicState.WriteNextStateStop s3z2).fCallWriteCounter =
      s3z2.fCallWriteCounter - 1) ∧
    ((JackAtomicState.WriteNextStateStop s3z2).fCounter = s3z2.fCounter) ∧
    ((JackAtomicState.WriteNextStateStop s3z3).fCounter.NextIndex =
      (s3z3.fCounter.NextIndex + 1) % 65536) := by
  have h1 := C5_nested_write s3z1
  have h0 := C5_nested_write s3z0
  have h2 := C5_nested_write s3z2
  have h3 := C5_nested_write s3z3
  exact ⟨(h1.1 (by decide)).1, (h1.1 (by decide)).2.2,
         (h0.2.1 (by decide)).1, h0.2.2.1, h2.2.2.2.1,
         h2.2.2.2.2.1 (by decide), (h3.2.2.2.2.2.1 (by decide)).2⟩

/-- Counterexample to the temporal part of claim C10: cc10 is a reachable
disciplined configuration of the array exchanger in which writer 1 holds an
open write region on slot 0 (handed to it by WriteNextStateStart(1) when
slot 1 was current) while switches on id 2 have made byte 0 equal to 0, so
ReadCurrentState designates the very slot writer 1 is still mutating. -/
theorem C10_counterexample :
    AReach cc10 ∧ cc10.region 1 = some 0 ∧
    cc10.st.fCounter.fByteVal 0 = 0 ∧
    JackAtomicArrayState.ReadCurrentState cc10.st = cc10.st.fState 0 := by
  refine ⟨?_, by decide, by decide, rfl⟩
  exact AReach.switch _ 2 (AReach.stop _ 2 0 (AReach.start _ 2
    (AReach.switch _ 2 (AReach.stop _ 2 2 (AReach.start _ 2
      (AReach.start _ 1 (AReach.switch _ 1 (AReach.stop _ 1 1
        (AReach.start _ 1 AReach.init (Or.inl rfl) (by decide))
        (by decide)) (Or.inl rfl)) (Or.inl rfl) (by decide))
      (Or.inr rfl) (by decide)) (by decide)) (Or.inr rfl))
    (Or.inr rfl) (by decide)) (by decide)) (Or.inr rfl)

/-- Claim C10 as amended: the slot index returned by WriteNextStateStart
differs from the current slot index at that moment in both variants, and at
any one state distinct pending ids of the array exchanger are handed
distinct slot indices; in the single exchanger a switch inside an open
write region leaves the current slot index unchanged and distinct from the
writer's pending slot (in the array exchanger, by C10's counterexample,
switches on another id can promote the slot a writer is still mutating). -/
theorem C10_slot_exclusivity :
    (∀ (T : Type) (s : JackAtomicState T),
      (JackAtomicState.WriteNextStateStart s).2 ≠
        AtomicCounter.CurArrayIndex
          (JackAtomicState.WriteNextStateStart s).1.fCounter) ∧
    (∀ (T : Type) (s : JackAtomicArrayState T) (p : Nat), p = 1 ∨ p = 2 →
      (JackAtomicArrayState.WriteNextStateStart s p).2 ≠
        (JackAtomicArrayState.WriteNextStateStart s p).1.fCounter.fByteVal 0) ∧
    (∀ (T : Type) (s : JackAtomicArrayState T) (p1 p2 : Nat),
      p1 = 1 ∨ p1 = 2 → p2 = 1 ∨ p2 = 2 → p1 ≠ p2 →
      (JackAtomicArrayState.WriteNextStateStart s p1).2 ≠
        (JackAtomicArrayState.WriteNextStateStart s p2).2) ∧
    (∀ (T : Type) (s : JackAtomicState T), JackAtomicState.Reach s →
      1 ≤ s.fCallWriteCounter →
      AtomicCounter.CurArrayIndex
          (JackAtomicState.TrySwitchState s).1.fCounter =
        AtomicCounter.CurArrayIndex s.fCounter ∧
      AtomicCounter.CurArrayIndex s.fCounter ≠
        AtomicCounter.NextArrayIndex s.fCounter) := by
  refine ⟨fun T s => ?_, fun T s p hp => ?_, fun T s p1 p2 hp1 hp2 hne => ?_,
          fun T s hr hd => ?_⟩
  · by_cases h0 : s.fCallWriteCounter = 0
    · rw [JackAtomicState.start_outer s h0]
      exact fun e => mod2_succ_ne s.fCounter.CurIndex e
    · rw [JackAtomicState.start_inner s h0]
      exact fun e => mod2_succ_ne s.fCounter.CurIndex e
  · show (JackAtomicArrayState.WriteNextStateStartAux s p).2.1 ≠
      (JackAtomicArrayState.WriteNextStateStartAux s p).1.fCounter.fByteVal 0
    rw [JackAtomicArrayState.startAux_byte0 s p hp,
        JackAtomicArrayState.startAux_idx]
    rcases hp with hp | hp <;> subst hp <;>
      by_cases hb : s.fCounter.fByteVal 0 = 1 <;>
      by_cases hb2 : s.fCounter.fByteVal 0 = 2 <;>
      simp [hb, hb2] <;> omega
  · show (JackAtomicArrayState.WriteNextStateStartAux s p1).2.1 ≠
      (JackAtomicArrayState.WriteNextStateStartAux s p2).2.1
    rw [JackAtomicArrayState.startAux_idx, JackAtomicArrayState.startAux_idx]
    rcases hp1 with hp1 | hp1 <;> subst hp1 <;>
      rcases hp2 with hp2 | hp2 <;> subst hp2 <;>
      try simp at hne
    all_goals
      by_cases hb : s.fCounter.fByteVal 0 = 1 <;>
      by_cases hb2 : s.fCounter.fByteVal 0 = 2 <;>
      simp [hb, hb2]
  · have hnc :=
      (JackAtomicState.reach_counter_inv s hr).2.2.2.1 hd
    rw [JackAtomicState.switch_eq]
    dsimp only
    constructor
    · simp [AtomicCounter.CurArrayIndex, hnc]
    · simp only [AtomicCounter.CurArrayIndex, AtomicCounter.NextArrayIndex]
      exact fun e => mod2_succ_ne s.fCounter.CurIndex e.symm

/-- Witness for C10 at the fresh exchangers: the single exchanger with one
open region and the array exchanger with ids 1 and 2. -/
theorem C10_slot_exclusivity_witness :
    ((JackAtomicState.WriteNextStateStart wInit).2 ≠
      AtomicCounter.CurArrayIndex
        (JackAtomicState.WriteNextStateStart wInit).1.fCounter) ∧
    ((JackAtomicArrayState.WriteNextStateStart aInit 1).2 ≠
      (JackAtomicArrayState.WriteNextStateStart aInit 1).1.fCounter.fByteVal
        0) ∧
    ((JackAtomicArrayState.WriteNextStateStart aInit 1).2 ≠
      (JackAtomicArrayState.WriteNextStateStart aInit 2).2) ∧
    (AtomicCounter.CurArrayIndex
        (JackAtomicState.TrySwitchState
          (JackAtomicState.WriteNextStateStart wInit).1).1.fCounter =
      AtomicCounter.CurArrayIndex
        (JackAtomicState.WriteNextStateStart wInit).1.fCounter) := by
  have h := C10_slot_exclusivity
  exact ⟨h.1 Nat wInit, h.2.1 Nat aInit 1 (Or.inl rfl),
         h.2.2.1 Nat aInit 1 2 (Or.inl rfl) (Or.inr rfl) (by decide),
         (h.2.2.2 Nat _
           (JackAtomicState.Reach.start _
             (JackAtomicState.Reach.init (fun _ => 0)))
           (by decide)).1⟩

end Jack
